import Mathlib

/-!
Verification of the MAPD713 patient-data REST service (server.js).

The service is a set of Express handlers over three Mongo collections
(patients, users, clinical records).  Each handler is embedded as a pure
Lean function: the request body is an association list of string fields
(a JSON object), the collections are Lean lists, and an Option String
oracle argument stands for a store operation that may throw (some e
models a thrown error whose message is e, none models success).
-/

namespace MAPD713

/-- A JSON object body: an association list from field names to values. -/
abbrev Body := List (String × String)

/-- Reading a field of a JSON object (the first binding wins). -/
def lookupField (k : String) (b : Body) : Option String :=
  (b.find? (fun p => p.1 == k)).map (fun p => p.2)

/-- JavaScript object spread with override: the object written
\x7b ...b, k: v \x7d has every field of b except that field k now holds v. -/
def setField (k v : String) (b : Body) : Body :=
  b.filter (fun p => p.1 != k) ++ [(k, v)]

/-- The Patient document as constructed by the POST /patients handler
(server.js lines 153-194): exactly the thirteen destructured body fields.
A field absent from the body is none (undefined in the source). -/
structure Patient where
  patientId : Option String
  name : Option String
  age : Option String
  gender : Option String
  admissionDate : Option String
  condition : Option String
  phone : Option String
  email : Option String
  address : Option String
  emergencyContactPhone : Option String
  medicalHistory : Option String
  allergies : Option String
  bloodType : Option String
deriving DecidableEq, Repr

/-- The thirteen field names destructured from the request body by
POST /patients. -/
def patientFieldNames : List String :=
  ["patientId", "name", "age", "gender", "admissionDate", "condition",
   "phone", "email", "address", "emergencyContactPhone",
   "medicalHistory", "allergies", "bloodType"]

/-- Destructuring of req.body followed by the PatientModel object literal
(server.js lines 155-194): each of the thirteen fields is read from the
body, everything else in the body is ignored. -/
def mkPatient (b : Body) : Patient where
  patientId := lookupField "patientId" b
  name := lookupField "name" b
  age := lookupField "age" b
  gender := lookupField "gender" b
  admissionDate := lookupField "admissionDate" b
  condition := lookupField "condition" b
  phone := lookupField "phone" b
  email := lookupField "email" b
  address := lookupField "address" b
  emergencyContactPhone := lookupField "emergencyContactPhone" b
  medicalHistory := lookupField "medicalHistory" b
  allergies := lookupField "allergies" b
  bloodType := lookupField "bloodType" b

/-- The patients collection: documents with their store-generated keys. -/
abbrev PatientStore := List (Nat × Patient)

/-- Response of GET /patients (server.js lines 92-99): the whole
collection on success, status 500 with the raw error message on a store
error. -/
inductive PatientsListResp
  | ok (patients : PatientStore)
  | serverError (message : String)
deriving DecidableEq, Repr

/-- HTTP status of a GET /patients response. -/
def PatientsListResp.status : PatientsListResp → Nat
  | .ok _ => 200
  | .serverError _ => 500

/-- GET /patients (server.js lines 92-99): PatientModel.find() returns
every document; a thrown store error e is answered with
res.status(500).json(\x7bmessage: err.message\x7d). -/
def getPatients (store : PatientStore) (dbErr : Option String) : PatientsListResp :=
  match dbErr with
  | some e => .serverError e
  | none => .ok store

/-- Response of GET /patients/:id (server.js lines 123-134). -/
inductive GetPatientResp
  | ok (patient : Patient)
  | notFound (message : String)
  | serverError (message : String)
deriving DecidableEq, Repr

/-- HTTP status of a GET /patients/:id response. -/
def GetPatientResp.status : GetPatientResp → Nat
  | .ok _ => 200
  | .notFound _ => 404
  | .serverError _ => 500

/-- The store lookups a handler can issue, recorded as a trace. -/
inductive StoreOp
  | findPatientById (key : Nat)
  | findClinicalByPatient (key : Nat)
deriving DecidableEq, Repr

/-- GET /patients/:id (server.js lines 123-134): findById, 404 when the
key resolves to no document.  The fetch of the patient's clinical data is
a TODO stub in the source, so the trace never holds a clinical lookup;
the trace makes that explicit. -/
def getPatientById (key : Nat) (store : PatientStore) (dbErr : Option String) :
    GetPatientResp × List StoreOp :=
  match dbErr with
  | some e => (.serverError e, [.findPatientById key])
  | none =>
    match store.find? (fun q => q.1 == key) with
    | none => (.notFound "Patient not found", [.findPatientById key])
    | some q => (.ok q.2, [.findPatientById key])

/-- Response of POST /patients (server.js lines 153-202). -/
inductive PostPatientsResp
  | created (message : String) (patient : Patient)
  | conflict (message : String)
  | serverError (message : String) (error : String)
deriving DecidableEq, Repr

/-- HTTP status of a POST /patients response. -/
def PostPatientsResp.status : PostPatientsResp → Nat
  | .created _ _ => 201
  | .conflict _ => 400
  | .serverError _ _ => 500

/-- POST /patients (server.js lines 153-202): destructure the body,
findOne on patientId, reject duplicates with 400 and no write, otherwise
save and answer 201 with the stored representation.  newKey is the
store-generated key the save assigns; saveErr models a thrown save
error, answered by the catch branch with a generic message plus the raw
error text in an error field. -/
def postPatients (body : Body) (store : PatientStore) (newKey : Nat)
    (saveErr : Option String) : PostPatientsResp × PatientStore :=
  let p := mkPatient body
  match store.find? (fun q => q.2.patientId == p.patientId) with
  | some _ => (.conflict "Patient ID already exists", store)
  | none =>
    match saveErr with
    | some e => (.serverError "Server error" e, store)
    | none => (.created "Patient created successfully" p, store ++ [(newKey, p)])

/-- A stored user document (models/user): email, bcrypt password hash,
role. -/
structure User where
  email : String
  password : String
  role : String
deriving DecidableEq, Repr

/-- Response of POST /login (server.js lines 208-229). -/
inductive LoginResp
  | ok (message : String) (userEmail : String) (userRole : String)
  | badRequest (message : String)
  | serverError (message : String)
deriving DecidableEq, Repr

/-- HTTP status of a POST /login response. -/
def LoginResp.status : LoginResp → Nat
  | .ok _ _ _ => 200
  | .badRequest _ => 400
  | .serverError _ => 500

/-- Every string carried by a login response body, in order: the message
and, on success, the two user-profile fields. -/
def LoginResp.strings : LoginResp → List String
  | .ok m e r => [m, e, r]
  | .badRequest m => [m]
  | .serverError m => [m]

/-- POST /login (server.js lines 208-229).  cmp is bcrypt.compare, taken
as a parameter (its internals are out of scope); dbErr models a thrown
store error, answered with a generic message only. -/
def login (cmp : String → String → Bool) (users : List User)
    (email pw : String) (dbErr : Option String) : LoginResp :=
  match dbErr with
  | some _ => .serverError "Server error"
  | none =>
    match users.find? (fun u => u.email == email) with
    | none => .badRequest "Invalid email"
    | some u =>
      if cmp pw u.password then .ok "Login successful" u.email u.role
      else .badRequest "Invalid password"

/-- The clinical collection: stored documents, kept as JSON objects since
the handler copies the whole request body. -/
abbrev ClinicalStore := List Body

/-- The document constructed by POST /clinical (server.js lines 253-256):
the spread of req.body with dateTime overridden by the server clock. -/
def buildClinical (now : String) (body : Body) : Body :=
  setField "dateTime" now body

/-- Response of POST /clinical (server.js lines 252-264). -/
inductive PostClinicalResp
  | created (record : Body)
  | badRequest (message : String)
deriving DecidableEq, Repr

/-- HTTP status of a POST /clinical response. -/
def PostClinicalResp.status : PostClinicalResp → Nat
  | .created _ => 201
  | .badRequest _ => 400

/-- POST /clinical (server.js lines 252-264): build the document with the
server timestamp, save it, answer 201 with the stored document; a thrown
save error e is answered with 400 and the raw message e. -/
def postClinical (now : String) (body : Body) (recs : ClinicalStore)
    (saveErr : Option String) : PostClinicalResp × ClinicalStore :=
  let newClinical := buildClinical now body
  match saveErr with
  | some e => (.badRequest e, recs)
  | none => (.created newClinical, recs ++ [newClinical])

/-- A hexadecimal digit. -/
def isHexChar (c : Char) : Bool :=
  c.isDigit || (('a' ≤ c && c ≤ 'f') || ('A' ≤ c && c ≤ 'F'))

/-- A string the mongoose.Types.ObjectId constructor accepts: a
24-character hexadecimal string.  On anything else the constructor
throws. -/
def isValidObjectId (s : String) : Bool :=
  s.length == 24 && s.toList.all isHexChar

/-- Modelled: the message of the exception the ObjectId constructor
throws on malformed input.  Its exact text matters to no claim here. -/
def objectIdCastMessage : String :=
  "input must be a 24 character hex string"

/-- Response of GET /clinical/:patientId (server.js lines 284-300). -/
inductive ClinicalListResp
  | ok (records : List Body)
  | notFound (message : String)
  | serverError (message : String) (error : String)
deriving DecidableEq, Repr

/-- HTTP status of a GET /clinical/:patientId response. -/
def ClinicalListResp.status : ClinicalListResp → Nat
  | .ok _ => 200
  | .notFound _ => 404
  | .serverError _ _ => 500

/-- GET /clinical/:patientId (server.js lines 284-300): the path
parameter is first turned into an ObjectId inside the try block, so a
malformed key throws and lands in the catch branch (500, generic message
plus raw error text); otherwise find all records whose patient_id
matches, 404 when none do. -/
def getClinical (patientId : String) (recs : ClinicalStore)
    (dbErr : Option String) : ClinicalListResp :=
  if isValidObjectId patientId then
    match dbErr with
    | some e => .serverError "Server error" e
    | none =>
      let clinicalData := recs.filter (fun r => lookupField "patient_id" r == some patientId)
      if clinicalData.length == 0 then .notFound "No clinical measurement found."
      else .ok clinicalData
  else .serverError "Server error" objectIdCastMessage

/-- The six request handlers of server.js. -/
inductive Endpoint
  | getPatients
  | getPatientById
  | postPatients
  | login
  | postClinical
  | getClinicalByPatient
deriving DecidableEq, Repr

/-- The error response a catch branch produces: status, message field,
optional error field. -/
structure ErrResp where
  status : Nat
  message : Option String
  error : Option String
deriving DecidableEq, Repr

/-- The catch branch of each handler, applied to the thrown error's
message (server.js lines 96-98, 131-133, 199-201, 226-228, 261-263,
297-299). -/
def catchResp : Endpoint → String → ErrResp
  | .getPatients, e => ⟨500, some e, none⟩
  | .getPatientById, e => ⟨500, some e, none⟩
  | .postPatients, e => ⟨500, some "Server error", some e⟩
  | .login, _ => ⟨500, some "Server error", none⟩
  | .postClinical, e => ⟨400, some e, none⟩
  | .getClinicalByPatient, e => ⟨500, some "Server error", some e⟩

/-- Whether an error response carries the given text, either as its
message or in its error field. -/
def ErrResp.exposes (r : ErrResp) (e : String) : Bool :=
  r.message == some e || r.error == some e

end MAPD713

namespace MAPD713

/-! Helper lemmas about field lookup and the spread-with-override
construction. -/

@[simp]
theorem mkPatient_patientId (b : Body) :
    (mkPatient b).patientId = lookupField "patientId" b := rfl

theorem lookupField_setField_self (k v : String) (b : Body) :
    lookupField k (setField k v b) = some v := by
  unfold lookupField setField
  rw [List.find?_append]
  have h1 : (b.filter (fun p => p.1 != k)).find? (fun p => p.1 == k) = none := by
    rw [List.find?_eq_none]
    intro x hx
    have hx2 := (List.mem_filter.mp hx).2
    simp only [bne_iff_ne, ne_eq] at hx2
    simp [hx2]
  rw [h1]
  simp

theorem find?_filter_of_imp {α : Type} (l : List α) (p q : α → Bool)
    (h : ∀ x, p x = true → q x = true) :
    (l.filter q).find? p = l.find? p := by
  induction l with
  | nil => rfl
  | cons a t ih =>
    by_cases hq : q a = true
    · rw [List.filter_cons_of_pos hq]
      by_cases hp : p a = true
      · rw [List.find?_cons_of_pos _ hp, List.find?_cons_of_pos _ hp]
      · rw [List.find?_cons_of_neg _ hp, List.find?_cons_of_neg _ hp, ih]
    · have hp : ¬p a = true := fun hpa => hq (h a hpa)
      rw [List.filter_cons_of_neg hq, List.find?_cons_of_neg _ hp, ih]

theorem lookupField_setField_ne {k' k : String} (h : k' ≠ k) (v : String) (b : Body) :
    lookupField k' (setField k v b) = lookupField k' b := by
  unfold lookupField setField
  rw [List.find?_append]
  have h1 : (b.filter (fun p => p.1 != k)).find? (fun p => p.1 == k')
      = b.find? (fun p => p.1 == k') := by
    apply find?_filter_of_imp
    intro x hx
    have : x.1 = k' := by simpa using hx
    simp [this, h]
  have h2 : ([(k, v)].find? (fun p => p.1 == k')) = none := by
    simp [Ne.symm h]
  rw [h1, h2]
  cases b.find? (fun p => p.1 == k') <;> rfl

end MAPD713

namespace MAPD713

/-- Claim C1: a patient-creation request whose application-assigned
identifier equals the identifier of a patient already in the store is
answered with 400 and the conflict message, the store is left unchanged,
and the record count for that identifier stays at one. -/
theorem postPatients_duplicate_conflict (body : Body) (store : PatientStore)
    (newKey : Nat) (saveErr : Option String) (pid : String)
    (hpid : lookupField "patientId" body = some pid)
    (hcount : (store.filter (fun q => q.2.patientId == some pid)).length = 1) :
    (postPatients body store newKey saveErr).1
      = .conflict "Patient ID already exists"
    ∧ ((postPatients body store newKey saveErr).1).status = 400
    ∧ (postPatients body store newKey saveErr).2 = store
    ∧ ((postPatients body store newKey saveErr).2.filter
        (fun q => q.2.patientId == some pid)).length = 1 := by
  have hex : ∃ x ∈ store, (fun q : Nat × Patient => q.2.patientId == some pid) x = true := by
    by_contra hc
    push_neg at hc
    have : store.filter (fun q => q.2.patientId == some pid) = [] :=
      List.filter_eq_nil_iff.mpr hc
    rw [this] at hcount
    simp at hcount
  obtain ⟨q0, hfind⟩ := Option.isSome_iff_exists.mp (List.find?_isSome.mpr hex)
  simp only [postPatients, mkPatient_patientId, hpid]
  rw [hfind]
  exact ⟨rfl, rfl, rfl, hcount⟩

/-- Witness for C1 at a concrete store holding one patient P1. -/
theorem postPatients_duplicate_conflict_witness :
    (postPatients [("patientId", "P1"), ("name", "B")]
        [(0, mkPatient [("patientId", "P1"), ("name", "A")])] 1 none).1
      = PostPatientsResp.conflict "Patient ID already exists"
    ∧ (postPatients [("patientId", "P1"), ("name", "B")]
        [(0, mkPatient [("patientId", "P1"), ("name", "A")])] 1 none).2
      = [(0, mkPatient [("patientId", "P1"), ("name", "A")])] :=
  ⟨(postPatients_duplicate_conflict _ _ 1 none "P1" (by decide) (by decide)).1,
   (postPatients_duplicate_conflict _ _ 1 none "P1" (by decide) (by decide)).2.2.1⟩

/-- Claim C2: POST /clinical discards any client-supplied timestamp: the
persisted document is the request body with dateTime overridden by the
server clock at insert time, every other field kept, and the 201
response carries exactly that document. -/
theorem postClinical_server_timestamp (now : String) (body : Body)
    (recs : ClinicalStore) :
    (postClinical now body recs none).2 = recs ++ [buildClinical now body]
    ∧ (postClinical now body recs none).1 = .created (buildClinical now body)
    ∧ ((postClinical now body recs none).1).status = 201
    ∧ lookupField "dateTime" (buildClinical now body) = some now
    ∧ ∀ k, k ≠ "dateTime" →
        lookupField k (buildClinical now body) = lookupField k body :=
  ⟨rfl, rfl, rfl, lookupField_setField_self _ _ _,
   fun _ hk => lookupField_setField_ne hk _ _⟩

/-- Witness for C2: a body that does supply a dateTime still gets the
server clock, and its other fields survive. -/
theorem postClinical_server_timestamp_witness :
    ("type" : String) ≠ "dateTime"
    ∧ lookupField "dateTime"
        (buildClinical "2024-01-01" [("dateTime", "1999"), ("type", "bp")])
      = some "2024-01-01"
    ∧ lookupField "type"
        (buildClinical "2024-01-01" [("dateTime", "1999"), ("type", "bp")])
      = some "bp" := by
  refine ⟨by decide,
    (postClinical_server_timestamp "2024-01-01" [("dateTime", "1999"), ("type", "bp")] []).2.2.2.1,
    ?_⟩
  have h := (postClinical_server_timestamp "2024-01-01"
    [("dateTime", "1999"), ("type", "bp")] []).2.2.2.2 "type" (by decide)
  rw [h]
  decide

/-- Claim C7: a patient-creation request with a novel application
identifier is persisted, answered 201 with the stored representation,
and a subsequent GET /patients listing includes the new patient. -/
theorem postPatients_novel_created (body : Body) (store : PatientStore)
    (newKey : Nat) (pid : String)
    (hpid : lookupField "patientId" body = some pid)
    (hnew : ∀ q ∈ store, q.2.patientId ≠ some pid) :
    (postPatients body store newKey none).1
      = .created "Patient created successfully" (mkPatient body)
    ∧ ((postPatients body store newKey none).1).status = 201
    ∧ (postPatients body store newKey none).2 = store ++ [(newKey, mkPatient body)]
    ∧ getPatients ((postPatients body store newKey none).2) none
      = .ok (store ++ [(newKey, mkPatient body)])
    ∧ (newKey, mkPatient body) ∈ ((postPatients body store newKey none).2) := by
  have hfind : store.find? (fun q => q.2.patientId == (mkPatient body).patientId)
      = none := by
    rw [List.find?_eq_none]
    intro q hq
    simp only [mkPatient_patientId, hpid, beq_iff_eq]
    exact hnew q hq
  simp only [postPatients]
  rw [hfind]
  refine ⟨rfl, rfl, rfl, rfl, ?_⟩
  simp

/-- Witness for C7: creating P2 in an empty store. -/
theorem postPatients_novel_created_witness :
    (postPatients [("patientId", "P2")] [] 0 none).1
      = PostPatientsResp.created "Patient created successfully" (mkPatient [("patientId", "P2")])
    ∧ (0, mkPatient [("patientId", "P2")]) ∈ (postPatients [("patientId", "P2")] [] 0 none).2 :=
  ⟨(postPatients_novel_created _ [] 0 "P2" (by decide) (by simp)).1,
   (postPatients_novel_created _ [] 0 "P2" (by decide) (by simp)).2.2.2.2⟩

/-- Claim C10: POST /patients persists only the thirteen enumerated body
fields: two bodies agreeing on those fields yield the same stored
patient, so any other body field is discarded, a client-supplied store
key among them; POST /clinical by contrast copies every body field,
only the timestamp being overridden. -/
theorem postPatients_enumerated_fields_only (b1 b2 body : Body) (now v : String) :
    ((∀ k ∈ patientFieldNames, lookupField k b1 = lookupField k b2) →
        mkPatient b1 = mkPatient b2)
    ∧ mkPatient (setField "_id" v body) = mkPatient body
    ∧ (∀ k, k ≠ "dateTime" →
        lookupField k (buildClinical now body) = lookupField k body) := by
  refine ⟨?_, ?_, fun _ hk => lookupField_setField_ne hk _ _⟩
  · intro h
    unfold mkPatient
    simp only [Patient.mk.injEq]
    exact ⟨h _ (by decide), h _ (by decide), h _ (by decide), h _ (by decide),
      h _ (by decide), h _ (by decide), h _ (by decide), h _ (by decide),
      h _ (by decide), h _ (by decide), h _ (by decide), h _ (by decide),
      h _ (by decide)⟩
  · unfold mkPatient
    simp only [Patient.mk.injEq]
    exact ⟨lookupField_setField_ne (by decide) v body,
      lookupField_setField_ne (by decide) v body,
      lookupField_setField_ne (by decide) v body,
      lookupField_setField_ne (by decide) v body,
      lookupField_setField_ne (by decide) v body,
      lookupField_setField_ne (by decide) v body,
      lookupField_setField_ne (by decide) v body,
      lookupField_setField_ne (by decide) v body,
      lookupField_setField_ne (by decide) v body,
      lookupField_setField_ne (by decide) v body,
      lookupField_setField_ne (by decide) v body,
      lookupField_setField_ne (by decide) v body,
      lookupField_setField_ne (by decide) v body⟩

/-- Witness for C10: an extra junk field does not change the stored
patient, while a clinical body field survives the copy. -/
theorem postPatients_enumerated_fields_only_witness :
    mkPatient [("patientId", "P1"), ("junk", "x")] = mkPatient [("patientId", "P1")]
    ∧ lookupField "type" (buildClinical "T0" [("type", "hr"), ("dateTime", "T9")])
      = some "hr" := by
  refine ⟨(postPatients_enumerated_fields_only
      [("patientId", "P1"), ("junk", "x")] [("patientId", "P1")] [] "T0" "v").1
      (by decide), ?_⟩
  have h := (postPatients_enumerated_fields_only [] []
    [("type", "hr"), ("dateTime", "T9")] "T0" "v").2.2 "type" (by decide)
  rw [h]
  decide

end MAPD713

namespace MAPD713

/-- Claim C3 counterexample: with no stored user for the supplied email,
the login response message is the code's capitalized "Invalid email",
not "invalid email" as the claim quotes it. -/
theorem login_message_case_counterexample :
    (([] : List User).find? (fun u => u.email == "a@b.c") = none)
    ∧ login (fun _ _ => false) [] "a@b.c" "pw" none
        = LoginResp.badRequest "Invalid email"
    ∧ login (fun _ _ => false) [] "a@b.c" "pw" none
        ≠ LoginResp.badRequest "invalid email" :=
  ⟨rfl, rfl, by decide⟩

/-- Claim C3 (amended: the messages are capitalized, "Invalid email" and
"Invalid password"): POST /login answers 400 "Invalid email" exactly
when no stored user has the supplied email, and 400 "Invalid password"
exactly when the user is found but the hash comparison fails. -/
theorem login_error_messages (cmp : String → String → Bool) (users : List User)
    (email pw : String) :
    (login cmp users email pw none = LoginResp.badRequest "Invalid email"
      ↔ users.find? (fun u => u.email == email) = none)
    ∧ (login cmp users email pw none = LoginResp.badRequest "Invalid password"
      ↔ ∃ u, users.find? (fun u => u.email == email) = some u
          ∧ cmp pw u.password = false)
    ∧ (LoginResp.badRequest "Invalid email").status = 400
    ∧ (LoginResp.badRequest "Invalid password").status = 400 := by
  refine ⟨?_, ?_, rfl, rfl⟩
  · cases hfind : users.find? (fun u => u.email == email) with
    | none =>
      simp only [login, hfind]
    | some u =>
      simp only [login, hfind]
      by_cases hcmp : cmp pw u.password = true
      · rw [if_pos hcmp]
        exact ⟨fun h => LoginResp.noConfusion h, fun h => Option.noConfusion h⟩
      · rw [if_neg hcmp]
        constructor
        · intro h
          injection h with h'
          exact absurd h' (by decide)
        · intro h
          exact Option.noConfusion h
  · cases hfind : users.find? (fun u => u.email == email) with
    | none =>
      simp only [login, hfind]
      constructor
      · intro h
        injection h with h'
        exact absurd h' (by decide)
      · rintro ⟨u, hu, -⟩
        exact Option.noConfusion hu
    | some u =>
      simp only [login, hfind]
      by_cases hcmp : cmp pw u.password = true
      · rw [if_pos hcmp]
        constructor
        · intro h
          exact LoginResp.noConfusion h
        · rintro ⟨u', hu', hc⟩
          injection hu' with h'
          subst h'
          rw [hcmp] at hc
          exact Bool.noConfusion hc
      · rw [if_neg hcmp]
        exact ⟨fun _ => ⟨u, rfl, Bool.eq_false_iff.mpr hcmp⟩, fun _ => rfl⟩

/-- Witness for C3 (amended): one stored user, wrong password on one
call, unknown email on the logic of the first equivalence. -/
theorem login_error_messages_witness :
    login (fun p h => p == h) [User.mk "a@b.c" "secret" "nurse"] "a@b.c" "wrong" none
      = LoginResp.badRequest "Invalid password" :=
  (login_error_messages (fun p h => p == h) [User.mk "a@b.c" "secret" "nurse"]
    "a@b.c" "wrong").2.1.mpr ⟨User.mk "a@b.c" "secret" "nurse", by decide, by decide⟩

/-- Claim C4: a well-formed patient key with zero matching clinical
records is answered by GET /clinical with 404, never 200 with an empty
list. -/
theorem getClinical_empty_notFound (pid : String) (recs : ClinicalStore)
    (hvalid : isValidObjectId pid = true)
    (hempty : recs.filter (fun r => lookupField "patient_id" r == some pid) = []) :
    getClinical pid recs none = .notFound "No clinical measurement found."
    ∧ (getClinical pid recs none).status = 404
    ∧ ∀ rs, getClinical pid recs none ≠ .ok rs := by
  have h : getClinical pid recs none = .notFound "No clinical measurement found." := by
    unfold getClinical
    rw [if_pos hvalid]
    simp [hempty]
  refine ⟨h, ?_, fun rs hc => by rw [h] at hc; cases hc⟩
  rw [h]
  rfl

/-- Witness for C4: a syntactically valid key over an empty clinical
collection. -/
theorem getClinical_empty_notFound_witness :
    getClinical "0123456789abcdef01234567" [] none
      = ClinicalListResp.notFound "No clinical measurement found."
    ∧ (getClinical "0123456789abcdef01234567" [] none).status = 404 :=
  ⟨(getClinical_empty_notFound "0123456789abcdef01234567" [] (by decide) rfl).1,
   (getClinical_empty_notFound "0123456789abcdef01234567" [] (by decide) rfl).2.1⟩

/-- Claim C5: a store-generated key resolving to no patient is answered
by GET /patients/:id with 404 and no clinical-record lookup is issued. -/
theorem getPatientById_absent_notFound (key : Nat) (store : PatientStore)
    (habs : store.find? (fun q => q.1 == key) = none) :
    (getPatientById key store none).1 = .notFound "Patient not found"
    ∧ ((getPatientById key store none).1).status = 404
    ∧ ∀ k, StoreOp.findClinicalByPatient k ∉ (getPatientById key store none).2 := by
  have h2 : getPatientById key store none
      = (.notFound "Patient not found", [.findPatientById key]) := by
    simp only [getPatientById, habs]
  rw [h2]
  exact ⟨rfl, rfl, fun k hk => StoreOp.noConfusion (List.mem_singleton.mp hk)⟩

/-- Witness for C5: key 7 over an empty patient store. -/
theorem getPatientById_absent_notFound_witness :
    (getPatientById 7 [] none).1 = GetPatientResp.notFound "Patient not found"
    ∧ StoreOp.findClinicalByPatient 7 ∉ (getPatientById 7 [] none).2 :=
  ⟨(getPatientById_absent_notFound 7 [] rfl).1,
   (getPatientById_absent_notFound 7 [] rfl).2.2 7⟩

/-- Claim C6 counterexample: GET /patients is not clinical-record
creation, yet its catch branch exposes the raw store error text as its
message, refuting the claim that every endpoint but clinical creation
hides it. -/
theorem catch_raw_exposure_counterexample :
    Endpoint.getPatients ≠ Endpoint.postClinical
    ∧ (catchResp Endpoint.getPatients "boom").message = some "boom"
    ∧ (catchResp Endpoint.getPatients "boom").exposes "boom" = true := by
  decide

/-- Claim C6 (amended: only the login endpoint hides the raw store error
text behind a generic message; every other endpoint exposes it, either
as the message itself or in an error field next to a generic message). -/
theorem catch_raw_exposure (ep : Endpoint) (e : String)
    (h : e ≠ "Server error") :
    (catchResp ep e).exposes e = true ↔ ep ≠ Endpoint.login := by
  cases ep <;> simp [catchResp, ErrResp.exposes, Ne.symm h]

/-- Witness for C6 (amended) at the single-patient read endpoint. -/
theorem catch_raw_exposure_witness :
    ("boom" : String) ≠ "Server error"
    ∧ ((catchResp Endpoint.getPatientById "boom").exposes "boom" = true
        ↔ Endpoint.getPatientById ≠ Endpoint.login) :=
  ⟨by decide, catch_raw_exposure Endpoint.getPatientById "boom" (by decide)⟩

/-- Claim C8: a successful login answers with exactly the constant
message and the user's email and role: the response carries no other
string, so neither the supplied password nor the stored hash appears in
any response field. -/
theorem login_success_minimal (cmp : String → String → Bool) (users : List User)
    (email pw : String) (u : User)
    (hfind : users.find? (fun v => v.email == email) = some u)
    (hcmp : cmp pw u.password = true) :
    login cmp users email pw none = .ok "Login successful" u.email u.role
    ∧ (login cmp users email pw none).strings
      = ["Login successful", u.email, u.role] := by
  simp only [login, hfind]
  rw [if_pos hcmp]
  exact ⟨rfl, rfl⟩

/-- Witness for C8: a successful login against one stored user. -/
theorem login_success_minimal_witness :
    login (fun _ _ => true) [User.mk "a@b.c" "h4sh" "admin"] "a@b.c" "pw" none
      = LoginResp.ok "Login successful" "a@b.c" "admin"
    ∧ (login (fun _ _ => true) [User.mk "a@b.c" "h4sh" "admin"] "a@b.c" "pw" none).strings
      = ["Login successful", "a@b.c", "admin"] :=
  login_success_minimal (fun _ _ => true) [User.mk "a@b.c" "h4sh" "admin"]
    "a@b.c" "pw" (User.mk "a@b.c" "h4sh" "admin") (by decide) rfl

/-- Claim C9: a path parameter that is not a well-formed store key makes
the ObjectId construction inside the try block throw, so GET /clinical
answers 500 from the catch branch, not 404. -/
theorem getClinical_malformed_key_server_error (pid : String)
    (recs : ClinicalStore) (dbErr : Option String)
    (hbad : isValidObjectId pid = false) :
    getClinical pid recs dbErr = .serverError "Server error" objectIdCastMessage
    ∧ (getClinical pid recs dbErr).status = 500
    ∧ (getClinical pid recs dbErr).status ≠ 404 := by
  have h : getClinical pid recs dbErr
      = .serverError "Server error" objectIdCastMessage := by
    unfold getClinical
    rw [if_neg (by simp [hbad])]
  refine ⟨h, ?_, ?_⟩
  · rw [h]
    rfl
  · rw [h]
    decide

/-- Witness for C9: the three-character key abc is not a valid ObjectId. -/
theorem getClinical_malformed_key_witness :
    getClinical "abc" [] none
      = ClinicalListResp.serverError "Server error" objectIdCastMessage
    ∧ (getClinical "abc" [] none).status = 500 :=
  ⟨(getClinical_malformed_key_server_error "abc" [] none (by decide)).1,
   (getClinical_malformed_key_server_error "abc" [] none (by decide)).2.1⟩

end MAPD713
